import Mathlib

/-!
Verification development for the Ship-battles repository.

The navigation/formation core lives in the AI module (src/unnamed/part_002),
src/js/entities.js and src/js/game.js, with constants from config.js
(src/old/js/config.js in this snapshot).  All numeric JS state is embedded as ℚ.
Fields that the code defensively checks for NaN/undefined on read
(throttle, rudder angle, angular velocity, current speed) are embedded as
Option ℚ, with `none` standing for NaN/undefined; the JS reads
`x || 0` / `isNaN(x) ? d : x` become `Option.getD`.

The JS code calls the transcendental functions Math.sqrt / Math.hypot /
Math.atan2 / Math.cos / Math.sin and the constant Math.PI, which have no exact
computable counterpart on ℚ:
* Math.sqrt / Math.hypot are modelled by `ratSqrt` / `hypot`, a floor-style
  rational square root that is exact on squares of rationals.  Concrete
  scenario theorems only use inputs whose comparisons against thresholds are
  far away from the floor error; theorems that need the exact root take its
  defining equation as a hypothesis.
* atan2 / cos / sin / PI are collected in the parameter record `Trig`.
  Universal theorems hold for every instantiation.  Concrete scenario theorems
  instantiate it with finite tables listing the values of the real functions at
  the finitely many arguments evaluated by that run, with angles measured in
  half-turns (so Math.PI becomes 1 and the tables are exact rationals, or
  rational approximations whose error is far below every branch margin).
-/

set_option maxRecDepth 16000

namespace ShipBattles

/-- clamp from src/js/utils.js: Math.max(lo, Math.min(hi, v)). -/
def clamp (v lo hi : ℚ) : ℚ := max lo (min hi v)

/-- JS Math.sign on numbers: 1, -1 or 0. -/
def jsSign (q : ℚ) : ℚ := if 0 < q then 1 else if q < 0 then -1 else 0

/-- Newton iteration for the integer square root, structurally recursive on a
fuel argument so that proofs can evaluate it by kernel reduction. -/
def isqrtAux (n : ℕ) : ℕ → ℕ → ℕ
  | 0, g => g
  | fuel+1, g =>
    let g2 := (g + n / g) / 2
    if g2 < g then isqrtAux n fuel g2 else g

/-- Integer (floor) square root.  Fuel 128 suffices for every argument below
2^128: the Newton sequence started at n/2+1 is strictly decreasing until it
reaches the floor square root, and roughly halves the binary gap each step. -/
def isqrt (n : ℕ) : ℕ := if n ≤ 1 then n else isqrtAux n 128 (n / 2 + 1)

/-- Model of JS Math.sqrt on rationals: floor-style rational square root
(⌊√(num·den)⌋ / den), exact on rationals that are squares, never above the
real root, and within 1/den below it. -/
def ratSqrt (q : ℚ) : ℚ := if q ≤ 0 then 0 else (isqrt (q.num.toNat * q.den) : ℚ) / (q.den : ℚ)

/-- Model of JS Math.hypot(x, y). -/
def hypot (x y : ℚ) : ℚ := ratSqrt (x ^ 2 + y ^ 2)

/-- Floor of a rational, via flooring integer division. -/
def ratFloor (q : ℚ) : ℤ := Int.fdiv q.num q.den

/-- JS Math.ceil for the non-negative arguments used as loop bounds. -/
def ratCeilNat (q : ℚ) : ℕ := (-(ratFloor (-q))).toNat

/-- Truncation toward zero, as used by the JS % operator. -/
def jsTrunc (q : ℚ) : ℤ := if q < 0 then -(ratFloor (-q)) else ratFloor q

/-- The JS remainder operator a % b on numbers (sign follows the dividend). -/
def jsMod (a b : ℚ) : ℚ := a - b * (jsTrunc (a / b) : ℚ)

/-- Parameter record standing for the transcendental functions Math.atan2,
Math.cos, Math.sin and the constant Math.PI (see the module docstring). -/
structure Trig where
  pi : ℚ
  cos : ℚ → ℚ
  sin : ℚ → ℚ
  atan2 : ℚ → ℚ → ℚ

/-- normAngle from src/js/utils.js: a %= TAU; then fold once into (-π, π]. -/
def normAngle (T : Trig) (a : ℚ) : ℚ :=
  let tau := 2 * T.pi
  let a1 := jsMod a tau
  let a2 := if a1 < -T.pi then a1 + tau else a1
  if T.pi < a2 then a2 - tau else a2

/-- Fuel-bounded model of the JS loop `while (a > PI) a -= 2*PI`.  The inputs
are differences of two atan2 results, so one iteration always suffices. -/
def wrapDown (pi : ℚ) : ℕ → ℚ → ℚ
  | 0, a => a
  | n+1, a => if pi < a then wrapDown pi n (a - 2 * pi) else a

/-- Fuel-bounded model of the JS loop `while (a < -PI) a += 2*PI`. -/
def wrapUp (pi : ℚ) : ℕ → ℚ → ℚ
  | 0, a => a
  | n+1, a => if a < -pi then wrapUp pi n (a + 2 * pi) else a

/-- WORLD.w from config.js: Math.round(3200 * MAP_SCALE), MAP_SCALE = 2.8. -/
def WORLD_W : ℚ := 8960

/-- WORLD.h from config.js: Math.round(2200 * 2.8). -/
def WORLD_H : ℚ := 6160

/-- ESCORT_LOCK_RADIUS from config.js. -/
def ESCORT_LOCK_RADIUS : ℚ := 60

/-- THROTTLE_CHANGE_RATE from config.js. -/
def THROTTLE_CHANGE_RATE : ℚ := 45

/-- SPEED_INERTIA from config.js (the `|| 0.92` fallback in physicsStep yields
the same value). -/
def SPEED_INERTIA : ℚ := 92 / 100

/-- REVERSE_SPEED_MULT from config.js. -/
def REVERSE_SPEED_MULT : ℚ := 1 / 2

/-- COMMANDER_LAND_MARGIN from the AI module: 200 + ESCORT_FORMATION_RADIUS. -/
def COMMANDER_LAND_MARGIN : ℚ := 700

/-- The four vessel classes ('BB' | 'CV' | 'DD' | 'TB' in kind.type). -/
inductive ShipType
  | BB
  | CV
  | DD
  | TB
deriving DecidableEq

/-- Team tag ('P' or 'E'). -/
inductive Team
  | P
  | E
deriving DecidableEq

/-- ship.routeState: 'patrol' | 'engaging'. -/
inductive RouteState
  | patrol
  | engaging
deriving DecidableEq

/-- A 2-D point (route waypoints, targets). -/
structure Pt where
  x : ℚ
  y : ℚ
deriving DecidableEq

/-- A land circle from the map data: center and radius. -/
structure Circle where
  x : ℚ
  y : ℚ
  r : ℚ
deriving DecidableEq

/-- The subset of a ship-class record (config.js DD/BB/TB/CV) that the
navigation core reads. -/
structure ShipKind where
  type : ShipType
  radius : ℚ
  maxSpeed : ℚ
  accel : ℚ
  turnRate : ℚ
deriving DecidableEq

/-- DD from config.js: radius 14, maxSpeed 115·0.28, accel 70·0.28, turnRate 1.5. -/
def kindDD : ShipKind := ⟨ShipType.DD, 14, 115 * (28/100), 70 * (28/100), 3/2⟩

/-- BB from config.js. -/
def kindBB : ShipKind := ⟨ShipType.BB, 22, 65 * (28/100), 34 * (28/100), 4/5⟩

/-- TB from config.js. -/
def kindTB : ShipKind := ⟨ShipType.TB, 12, 130 * (28/100), 90 * (28/100), 9/5⟩

/-- CV from config.js. -/
def kindCV : ShipKind := ⟨ShipType.CV, 26, 58 * (28/100), 28 * (28/100), 3/5⟩

/-- The subset of the mkShip vessel record (src/js/entities.js) read or written
by the navigation / formation code under verification.  `id` stands for JS
object identity (rosters hold distinct objects); `none` in the Option fields
stands for NaN/undefined. -/
structure Ship where
  id : ℕ
  team : Team
  kind : ShipKind
  x : ℚ
  y : ℚ
  vx : ℚ
  vy : ℚ
  heading : ℚ
  throttle : Option ℚ
  rudderAngle : Option ℚ
  angularVel : Option ℚ
  currentSpeed : Option ℚ
  alive : Bool
  isCommander : Bool
  escortPosition : Option ℕ
  plannedPath : List Pt
  routeState : RouteState
deriving DecidableEq

/-- A convenience base vessel (mkShip defaults) used to build concrete inputs. -/
def baseShip : Ship :=
  ⟨0, Team.P, kindDD, 0, 0, 0, 0, 0, some 50, some 0, some 0, some 0,
   true, false, none, [], RouteState.patrol⟩

/-- applyRudder from the AI module (part_002 lines 703–743).  Parameters:
`maxR` is MAX_RUDDER_ANGLE (π/6 in config.js, kept abstract because it is
irrational), `turnRate` is ship.kind.turnRate; `rudder`, `angVel` are
ship.rudderAngle and ship.angularVel (`none` = NaN/undefined, read through the
JS `|| 0` / isNaN guards).  Returns (rudderAngle', angularVel', heading').
The final `if (isNaN(ship.rudderAngle)) ship.rudderAngle = 0` of the JS is a
no-op here because the sanitised reads keep every intermediate value a real
rational. -/
def applyRudder (maxR turnRate : ℚ) (rudder angVel : Option ℚ)
    (heading desiredTurn dt : ℚ) : ℚ × ℚ × ℚ :=
  let targetRudder := clamp desiredTurn (-maxR) maxR
  let r0 := rudder.getD 0
  let rudderSpeed : ℚ := 3/10
  let diff := targetRudder - r0
  let maxChange := rudderSpeed * dt
  let r1 :=
    if 1/100 < |diff| then r0 + clamp diff (-maxChange) maxChange
    else if |targetRudder| < 1/50 then
      let returnSpeed := (1/5) * dt
      if |r0| < returnSpeed then 0 else r0 - jsSign r0 * returnSpeed
    else r0
  let r2 := clamp r1 (-maxR) maxR
  let turnFraction := |r2| / maxR
  let targetTurnRate := turnRate * turnFraction * jsSign r2
  let av0 := angVel.getD 0
  let angularDiff := targetTurnRate - av0
  let maxAngularChange := turnRate * dt * (8/10)
  let av1 := av0 + clamp (angularDiff * (6/10) * dt) (-maxAngularChange) maxAngularChange
  let av2 := av1 * (98/100)
  (r2, av2, heading + av2 * dt)

/-- updateAIThrottle from the AI module (part_002 lines 870–882).  `throttle`
is ship.throttle; `none` models the NaN/undefined case reset to 50 on read. -/
def updateAIThrottle (throttle : Option ℚ) (targetThrottle dt : ℚ) : ℚ :=
  let t0 := throttle.getD 50
  let throttleDiff := targetThrottle - t0
  let maxChange := THROTTLE_CHANGE_RATE * dt
  let t1 := if |throttleDiff| ≤ maxChange then targetThrottle
            else t0 + jsSign throttleDiff * maxChange
  clamp t1 0 100

/-- The velocity computed by physicsStep (src/js/game.js lines 707–735) up to
and including the drag step, before the max-speed clamp.  `c`, `s` stand for
Math.cos(ship.heading), Math.sin(ship.heading) and `dragPow` for
Math.pow(drag, dt·60), all transcendental in the source and therefore taken as
parameters.  Returns (vx, vy, currentSpeed'). -/
def physicsPre (c s dragPow vx vy : ℚ) (currentSpeed throttle : Option ℚ)
    (maxSpeed : ℚ) : ℚ × ℚ × ℚ :=
  let th := throttle.getD 0
  let throttleAbs := |th|
  let isReverse := th < 0
  let maxS := maxSpeed * (if isReverse then REVERSE_SPEED_MULT else 1)
  let targetSpeed := throttleAbs / 100 * maxS
  let cs0 := currentSpeed.getD 0
  let cs1 := cs0 * SPEED_INERTIA + targetSpeed * (1 - SPEED_INERTIA)
  let dir : ℚ := if isReverse then -1 else 1
  let tvx := c * cs1 * dir
  let tvy := s * cs1 * dir
  let vx1 := vx * (9/10) + tvx * (1/10)
  let vy1 := vy * (9/10) + tvy * (1/10)
  (vx1 * dragPow, vy1 * dragPow, cs1)

/-- The hard max-speed clamp at the end of physicsStep (game.js lines 737–742):
`if (hypot(vx,vy) > maxSpeed) scale both components by maxSpeed/hypot`. -/
def clampVel (vx vy maxSpeed : ℚ) : ℚ × ℚ :=
  let sp := hypot vx vy
  if maxSpeed < sp then (vx * (maxSpeed / sp), vy * (maxSpeed / sp)) else (vx, vy)

/-- Result record of physicsStep: the ship fields it writes. -/
structure PhysOut where
  x : ℚ
  y : ℚ
  vx : ℚ
  vy : ℚ
  currentSpeed : ℚ
deriving DecidableEq

/-- physicsStep from src/js/game.js lines 707–746 (kinematics part; the
cooldown/ammo bookkeeping and the land/world clipping that follow are outside
the navigation claims).  `drag` is DRAG_BB/DRAG_DD, applied directly (not
exponentiated) on the dead branch, exactly as in the source. -/
def physicsStep (alive : Bool) (c s drag dragPow x y vx vy : ℚ)
    (currentSpeed throttle : Option ℚ) (maxSpeed dt : ℚ) : PhysOut :=
  if ¬alive then ⟨x, y, vx * drag, vy * drag, currentSpeed.getD 0⟩
  else
    let p := physicsPre c s dragPow vx vy currentSpeed throttle maxSpeed
    let v := clampVel p.1 p.2.1 maxSpeed
    ⟨x + v.1 * dt, y + v.2 * dt, v.1, v.2, p.2.2⟩

/-- The escort lock/unlock update written identically in capitalAutoPilot
(part_002 lines 1064–1090), aiStep (lines 1322–1342) and aiStepPlayer (lines
1588–1607): dwell-time accounting followed by the hysteresis transition.
`dForm` is the ship's current distance to its formation slot.  Returns
(escortLocked', timeInPosition'). -/
def lockStep (escortLocked : Bool) (timeInPosition dForm dt : ℚ) : Bool × ℚ :=
  let inRadius := dForm ≤ ESCORT_LOCK_RADIUS
  let farOutside := ESCORT_LOCK_RADIUS * 3 < dForm
  let t1 := if inRadius then timeInPosition + dt
            else if ¬escortLocked then 0 else timeInPosition
  if escortLocked ∧ farOutside then (false, 0)
  else if ¬escortLocked ∧ 2 ≤ t1 then (true, t1)
  else (escortLocked, t1)

/-- Result record of predictCollision.  The JS object also carries
willCollide (true whenever the result is non-null, modelled by `some`),
otherShip, dx, dy and futureDist, none of which the verified callers read. -/
structure Prediction where
  timeToCollision : ℚ
  urgency : ℚ
  currentDist : ℚ
deriving DecidableEq

/-- predictCollision from the AI module (part_002 lines 511–584): emergency
near-overlap check, discrete forward sampling every 0.5 s up to the lookahead,
then the closed-form closest-point-of-approach refinement. -/
def predictCollision (ship other : Ship) (lookAhead : ℚ) : Option Prediction :=
  if ¬ship.alive ∨ ¬other.alive then none
  else if ship = other then none
  else
  let dx := other.x - ship.x
  let dy := other.y - ship.y
  let currentDist := hypot dx dy
  let collisionDist := ship.kind.radius + other.kind.radius + 40
  if currentDist < collisionDist + 30 then some ⟨0, 1, currentDist⟩
  else
  let samples := (ratFloor (2 * lookAhead)).toNat
  let md := (List.range samples).foldl (fun (acc : ℚ × ℚ) k =>
      let t := ((k : ℚ) + 1) / 2
      let fd := hypot ((other.x + other.vx * t) - (ship.x + ship.vx * t))
                      ((other.y + other.vy * t) - (ship.y + ship.vy * t))
      if fd < acc.1 then (fd, t) else acc) (currentDist, 0)
  let relVx := ship.vx - other.vx
  let relVy := ship.vy - other.vy
  let relSpeed := hypot relVx relVy
  let md2 :=
    if 1/2 < relSpeed then
      let tcpa := -(dx * relVx + dy * relVy) / (relSpeed * relSpeed)
      if 0 < tcpa ∧ tcpa < lookAhead then
        let cpaDist := hypot ((other.x + other.vx * tcpa) - (ship.x + ship.vx * tcpa))
                             ((other.y + other.vy * tcpa) - (ship.y + ship.vy * tcpa))
        if cpaDist < md.1 then (cpaDist, tcpa) else md
      else md
    else md
  if md2.1 < collisionDist + 60 then
    some ⟨md2.2, clamp (1 - md2.2 / lookAhead) (1/5) 1, currentDist⟩
  else none

/-- The ship.collisionPredicted alert object written by
calculateAvoidanceSteering (midpoint, time, urgency, other ship's identity). -/
structure PredictedInfo where
  px : ℚ
  py : ℚ
  time : ℚ
  urgency : ℚ
  withId : ℕ
deriving DecidableEq

/-- Result of calculateAvoidanceSteering: the returned {steer, throttle}
object together with the ship.collisionPredicted field it writes. -/
structure AvoidOut where
  steer : ℚ
  throttle : ℚ
  predicted : Option PredictedInfo
deriving DecidableEq

/-- The 3-second forward-sampling loop inside calculateAvoidanceSteering
(part_002 lines 624–638): minimum predicted separation and its time over
t = 0.3, 0.6, …, 3.0 (the JS accumulates the float 0.3 whose rounding error is
far below every threshold; modelled as exact multiples). -/
def avoidMinFuture (ship other : Ship) : ℚ × ℚ :=
  let dist := hypot (other.x - ship.x) (other.y - ship.y)
  (List.range 10).foldl (fun (acc : ℚ × ℚ) k =>
    let t := ((k : ℚ) + 1) * 3 / 10
    let fd := hypot ((other.x + other.vx * t) - (ship.x + ship.vx * t))
                    ((other.y + other.vy * t) - (ship.y + ship.vy * t))
    if fd < acc.1 then (fd, t) else acc) (dist, 0)

/-- One iteration of the threat loop of calculateAvoidanceSteering
(part_002 lines 611–695), threading (totalSteer, ship.collisionPredicted). -/
def avoidStep (T : Trig) (ship : Ship) (acc : ℚ × Option PredictedInfo)
    (other : Ship) : ℚ × Option PredictedInfo :=
  if ¬other.alive ∨ other = ship then acc
  else if other.team ≠ ship.team then acc
  else
  let dx := other.x - ship.x
  let dy := other.y - ship.y
  let dist := hypot dx dy
  let collisionDist := ship.kind.radius + other.kind.radius + 25
  if 200 < dist then acc
  else
  let mf := avoidMinFuture ship other
  let dangerouslyClose := dist < collisionDist + 40
  let willCollide := mf.1 < collisionDist + 30
  if ¬dangerouslyClose ∧ ¬willCollide then acc
  else
  let urgency := clamp (1 - ((min dist mf.1 - collisionDist) / 50)) (3/10) 1
  let predicted : Option PredictedInfo :=
    some ⟨(ship.x + other.x) / 2, (ship.y + other.y) / 2, mf.2, urgency, other.id⟩
  let toOther := T.atan2 dy dx
  let relAngle := normAngle T (toOther - ship.heading)
  let otherInFront := |relAngle| < T.pi / 2
  let otherToUs := T.atan2 (-dy) (-dx)
  let otherRelAngle := normAngle T (otherToUs - other.heading)
  let weAreInFrontOfOther := |otherRelAngle| < T.pi / 2
  let steerStrength : ℚ := 35/100
  let steerDir : ℚ :=
    if otherInFront ∧ ¬weAreInFrontOfOther then
      if 0 < T.sin (normAngle T (other.heading - ship.heading)) then -1 else 1
    else if ¬otherInFront ∧ weAreInFrontOfOther then
      if 0 < relAngle then -1 else 1
    else
      let base : ℚ := if 0 < relAngle then -1 else 1
      let myIdx := ship.escortPosition.getD 0
      let otherIdx := other.escortPosition.getD 0
      if myIdx ≠ otherIdx then (if myIdx < otherIdx then 1 else -1) else base
  (acc.1 + steerDir * steerStrength * urgency, predicted)

/-- calculateAvoidanceSteering from the AI module (part_002 lines 607–698).
The JS clears ship.collisionPredicted, folds over all ships accumulating
totalSteer, and returns { steer: clamp(totalSteer, -0.55, 0.55), throttle: 0 }. -/
def calculateAvoidanceSteering (T : Trig) (ship : Ship) (allShips : List Ship) :
    AvoidOut :=
  let acc := allShips.foldl (avoidStep T ship) (0, none)
  ⟨clamp acc.1 (-(11/20)) (11/20), 0, acc.2⟩

/-- The fixed commander class-priority order of pickCapitalLeader. -/
def priorityList : List ShipType := [ShipType.BB, ShipType.CV, ShipType.DD, ShipType.TB]

/-- Priority rank of a class in that order (smaller = higher priority). -/
def classRank : ShipType → ℕ
  | ShipType.BB => 0
  | ShipType.CV => 1
  | ShipType.DD => 2
  | ShipType.TB => 3

/-- The mutation applied to the newly elected commander inside
pickCapitalLeader: set the flag, empty the planned path, reset the route state. -/
def crown (s : Ship) : Ship :=
  { s with isCommander := true, plannedPath := [], routeState := RouteState.patrol }

/-- The mutation applied by the (unreachable) fallback branch of
pickCapitalLeader, which does not reset the planned path. -/
def crownFallback (s : Ship) : Ship :=
  { s with isCommander := true, routeState := RouteState.patrol }

/-- pickCapitalLeader from src/js/entities.js lines 83–111.  The JS mutates the
ships of `arr` in place; the model returns the elected leader together with the
roster after the call.  Object identity is `Ship.id`. -/
def pickCapitalLeader (arr : List Ship) : Option Ship × List Ship :=
  let alive := arr.filter (fun s => s.alive)
  if alive.isEmpty then (none, arr)
  else
    match alive.find? (fun s => s.isCommander) with
    | some c => (some c, arr)
    | none =>
      match priorityList.findSome? (fun ty => alive.find? (fun s => s.kind.type = ty)) with
      | some cand =>
        (some (crown cand),
         arr.map (fun s => if s.id = cand.id then crown s else { s with isCommander := false }))
      | none =>
        match alive.head? with
        | some a =>
          (some (crownFallback a),
           arr.map (fun s => if s.id = a.id then crownFallback s else s))
        | none => (none, arr)

/-- inLand from the AI module (part_002 lines 20–28): the first land circle
whose inflated disc contains the point.  The map object of state.mapId is
abstracted to its land list. -/
def inLand (x y pad : ℚ) (land : List Circle) : Option Circle :=
  land.find? (fun c => (x - c.x) ^ 2 + (y - c.y) ^ 2 ≤ (c.r + pad) ^ 2)

/-- pathCrossesLand from the AI module (part_002 lines 31–64): per island,
sampling along the segment followed by a closest-point check; returns the
first island hit.  The JS result also carries t/cx/cy/d, which the verified
caller (avoidLandTarget) never reads. -/
def pathCrossesLand (sx sy tx ty pad : ℚ) (land : List Circle) : Option Circle :=
  let vx := tx - sx
  let vy := ty - sy
  let vv := vx ^ 2 + vy ^ 2
  if vv < 1/1000000 then none
  else
    let pathLen := ratSqrt vv
    land.findSome? (fun c =>
      let margin := c.r + pad
      let numChecks := max 5 (ratCeilNat (pathLen / 200))
      match (List.range (numChecks + 1)).findSome? (fun i =>
        let t := (i : ℚ) / (numChecks : ℚ)
        let px := sx + vx * t
        let py := sy + vy * t
        if hypot (px - c.x) (py - c.y) < margin then some c else none) with
      | some hit => some hit
      | none =>
        let t := clamp (((c.x - sx) * vx + (c.y - sy) * vy) / vv) 0 1
        let cx := sx + vx * t
        let cy := sy + vy * t
        if hypot (cx - c.x) (cy - c.y) < margin then some c else none)

/-- The bounded push loop (6 retries) inside findWaypointAroundIsland
(part_002 lines 89–105): while some island other than the routed-around one
blocks the waypoint, push the waypoint radially out of the first such island. -/
def findWaypointPushLoop (island : Circle) (pad : ℚ) (land : List Circle)
    (T : Trig) : ℕ → ℚ × ℚ → ℚ × ℚ
  | 0, wp => wp
  | n+1, wp =>
    match land.find? (fun c =>
        c ≠ island ∧ hypot (wp.1 - c.x) (wp.2 - c.y) < c.r + pad + 100) with
    | none => wp
    | some c =>
      let pushAngle := T.atan2 (wp.2 - c.y) (wp.1 - c.x)
      findWaypointPushLoop island pad land T n
        (c.x + T.cos pushAngle * (c.r + pad + 150),
         c.y + T.sin pushAngle * (c.r + pad + 150))

/-- findWaypointAroundIsland from the AI module (part_002 lines 67–108):
bypass waypoint 90° around the crossed island on the side of the smaller turn,
then the bounded push loop, then the world-bounds clamp. -/
def findWaypointAroundIsland (T : Trig) (sx sy tx ty : ℚ) (island : Circle)
    (pad : ℚ) (land : List Circle) : Pt :=
  let margin := island.r + pad + 200
  let angleToShip := T.atan2 (sy - island.y) (sx - island.x)
  let angleToTarget := T.atan2 (ty - island.y) (tx - island.x)
  let angleDiff := wrapUp T.pi 64 (wrapDown T.pi 64 (angleToTarget - angleToShip))
  let dir := if jsSign angleDiff = 0 then 1 else jsSign angleDiff
  let waypointAngle := angleToShip + dir * T.pi * (1/2)
  let wp0 := (island.x + T.cos waypointAngle * margin,
              island.y + T.sin waypointAngle * margin)
  let wp := findWaypointPushLoop island pad land T 6 wp0
  ⟨clamp wp.1 200 (WORLD_W - 200), clamp wp.2 200 (WORLD_H - 200)⟩

/-- The bounded radial push loop (8 retries) at the start of avoidLandTarget
(part_002 lines 116–124). -/
def avoidPushLoop (pad : ℚ) (land : List Circle) : ℕ → ℚ × ℚ → ℚ × ℚ
  | 0, p => p
  | k+1, p =>
    match inLand p.1 p.2 pad land with
    | none => p
    | some hit =>
      let dx := p.1 - hit.x
      let dy := p.2 - hit.y
      let d0 := hypot dx dy
      let d := if d0 = 0 then 1 else d0
      let want := hit.r + pad + 80
      avoidPushLoop pad land k (hit.x + dx / d * want, hit.y + dy / d * want)

/-- avoidLandTarget from the AI module (part_002 lines 110–144) — the local
avoidance planner the spec calls avoidObstacle.  The JS `ship && ship.kind`
guard is vacuous here because every modelled ship has a kind. -/
def avoidLandTarget (T : Trig) (ship : Ship) (tx ty : ℚ) (land : List Circle) : Pt :=
  let pad := ship.kind.radius + 120
  let p := avoidPushLoop pad land 8 (tx, ty)
  match pathCrossesLand ship.x ship.y p.1 p.2 pad land with
  | none => ⟨clamp p.1 50 (WORLD_W - 50), clamp p.2 50 (WORLD_H - 50)⟩
  | some crossingIsland =>
    let wp := findWaypointAroundIsland T ship.x ship.y p.1 p.2 crossingIsland pad land
    match pathCrossesLand ship.x ship.y wp.x wp.y pad land with
    | some wIsland =>
      if wIsland ≠ crossingIsland then
        let wp2 := findWaypointAroundIsland T ship.x ship.y wp.x wp.y wIsland pad land
        ⟨clamp wp2.x 50 (WORLD_W - 50), clamp wp2.y 50 (WORLD_H - 50)⟩
      else ⟨clamp wp.x 50 (WORLD_W - 50), clamp wp.y 50 (WORLD_H - 50)⟩
    | none => ⟨clamp wp.x 50 (WORLD_W - 50), clamp wp.y 50 (WORLD_H - 50)⟩

/-- distanceToNearestLand from the AI module (part_002 lines 157–166); `none`
models the Infinity result on an empty land list. -/
def distanceToNearestLand (x y : ℚ) (land : List Circle) : Option ℚ :=
  land.foldl (fun acc c =>
    let d := hypot (x - c.x) (y - c.y) - c.r
    match acc with
    | none => some d
    | some m => if d < m then some d else some m) none

/-- isPointSafe from the AI module (part_002 lines 169–171). -/
def isPointSafe (x y margin : ℚ) (land : List Circle) : Bool :=
  match distanceToNearestLand x y land with
  | none => true
  | some d => margin ≤ d

/-- The capped (15-iteration) repulsion loop of pushToSafePoint
(part_002 lines 178–198): sum the pushes of all violating islands, apply, repeat. -/
def pushToSafeLoop (margin : ℚ) (land : List Circle) : ℕ → ℚ × ℚ → ℚ × ℚ
  | 0, p => p
  | n+1, p =>
    let pushes := land.foldl (fun (acc : ℚ × ℚ × Bool) c =>
      let dx := p.1 - c.x
      let dy := p.2 - c.y
      let d := hypot dx dy
      let minDist := c.r + margin
      if d < minDist ∧ 1/10 < d then
        let pushStrength := (minDist - d) + 50
        (acc.1 + dx / d * pushStrength, acc.2.1 + dy / d * pushStrength, true)
      else acc) (0, 0, false)
    if pushes.2.2 then pushToSafeLoop margin land n (p.1 + pushes.1, p.2 + pushes.2.1)
    else p

/-- pushToSafePoint from the AI module (part_002 lines 174–204). -/
def pushToSafePoint (x y margin : ℚ) (land : List Circle) : Pt :=
  let p := pushToSafeLoop margin land 15 (x, y)
  ⟨clamp p.1 (margin + 100) (WORLD_W - margin - 100),
   clamp p.2 (margin + 100) (WORLD_H - margin - 100)⟩

/-- isDirectPathClear from the AI module (part_002 lines 265–279). -/
def isDirectPathClear (sx sy ex ey margin : ℚ) (land : List Circle) : Bool :=
  let steps := max 10 (ratCeilNat (hypot (ex - sx) (ey - sy) / 100))
  (List.range (steps + 1)).all (fun i =>
    let t := (i : ℚ) / (steps : ℚ)
    isPointSafe (sx + (ex - sx) * t) (sy + (ey - sy) * t) margin land)

/-- doesPathPassNearIsland from the AI module (part_002 lines 282–294). -/
def doesPathPassNearIsland (sx sy ex ey : ℚ) (island : Circle) (margin : ℚ) : Bool :=
  let vx := ex - sx
  let vy := ey - sy
  let vv := vx ^ 2 + vy ^ 2
  if vv < 1 then false
  else
    let t := clamp (((island.x - sx) * vx + (island.y - sy) * vy) / vv) 0 1
    let closestX := sx + vx * t
    let closestY := sy + vy * t
    hypot (closestX - island.x) (closestY - island.y) < island.r + margin + 100

/-- generateCurveAroundIsland from the AI module (part_002 lines 297–320):
curve-around waypoint at the bisector of the angles to start and end, pushed
to a safe point. -/
def generateCurveAroundIsland (T : Trig) (sx sy ex ey : ℚ) (island : Circle)
    (margin : ℚ) (land : List Circle) : Pt :=
  let curveMargin := island.r + margin + 150
  let angleToStart := T.atan2 (sy - island.y) (sx - island.x)
  let angleToEnd := T.atan2 (ey - island.y) (ex - island.x)
  let angleDiff := wrapUp T.pi 64 (wrapDown T.pi 64 (angleToEnd - angleToStart))
  let midAngle := angleToStart + angleDiff * (1/2)
  let wpX := island.x + T.cos midAngle * curveMargin
  let wpY := island.y + T.sin midAngle * curveMargin
  pushToSafePoint wpX wpY margin land

/-- Stable insertion used to model the JS Array.sort of blocking islands by
distance from the start (comparator da − db on Math.hypot distances, whose
ordering coincides with the squared distances used here). -/
def insertNearer (sx sy : ℚ) (c : Circle) : List Circle → List Circle
  | [] => [c]
  | d :: ds =>
    if (d.x - sx) ^ 2 + (d.y - sy) ^ 2 < (c.x - sx) ^ 2 + (c.y - sy) ^ 2 then
      d :: insertNearer sx sy c ds
    else c :: d :: ds

/-- Stable sort by distance from (sx, sy). -/
def sortByDist (sx sy : ℚ) (l : List Circle) : List Circle :=
  l.foldr (insertNearer sx sy) []

/-- generateSmoothPath from the AI module (part_002 lines 207–262). -/
def generateSmoothPath (T : Trig) (sx sy ex0 ey0 margin : ℚ) (land : List Circle) :
    List Pt :=
  let safeEnd := pushToSafePoint ex0 ey0 margin land
  let ex := safeEnd.x
  let ey := safeEnd.y
  if isDirectPathClear sx sy ex ey margin land then [⟨ex, ey⟩]
  else
    let blocking := land.filter (fun c => doesPathPassNearIsland sx sy ex ey c margin)
    if blocking.isEmpty then [⟨ex, ey⟩]
    else
      let sorted := sortByDist sx sy blocking
      let acc := sorted.foldl (fun (acc : (ℚ × ℚ) × List Pt) island =>
        let wp := generateCurveAroundIsland T acc.1.1 acc.1.2 ex ey island margin land
        ((wp.x, wp.y), acc.2 ++ [wp])) ((sx, sy), [])
      acc.2 ++ [⟨ex, ey⟩]

/-- planCommanderRoute from the AI module (part_002 lines 323–344): push the
destination safe, generate the smooth path, re-validate every waypoint at 80 %
of the margin. -/
def planCommanderRoute (T : Trig) (ship : Ship) (land : List Circle)
    (targetX targetY : ℚ) : List Pt :=
  let margin := COMMANDER_LAND_MARGIN
  let safeDest := pushToSafePoint targetX targetY margin land
  let path := generateSmoothPath T ship.x ship.y safeDest.x safeDest.y margin land
  path.map (fun wp =>
    if isPointSafe wp.x wp.y (margin * (8/10)) land then wp
    else pushToSafePoint wp.x wp.y margin land)

theorem le_clamp_lo (v lo hi : ℚ) : lo ≤ clamp v lo hi := le_max_left _ _

theorem clamp_le_hi (v lo hi : ℚ) (h : lo ≤ hi) : clamp v lo hi ≤ hi :=
  max_le h (min_le_left _ _)

theorem abs_clamp_le (v m : ℚ) (h : 0 ≤ m) : |clamp v (-m) m| ≤ m :=
  abs_le.mpr ⟨le_clamp_lo _ _ _, clamp_le_hi _ _ _ (by linarith)⟩

theorem clamp_pos (v lo hi : ℚ) (hv : 0 < v) (hhi : 0 < hi) : 0 < clamp v lo hi :=
  lt_of_lt_of_le (lt_min hhi hv) (le_max_right _ _)

theorem clamp_neg (v lo hi : ℚ) (hv : v < 0) (hlo : lo < 0) : clamp v lo hi < 0 :=
  max_lt hlo (lt_of_le_of_lt (min_le_right _ _) hv)

theorem ratSqrt_nonneg (q : ℚ) : 0 ≤ ratSqrt q := by
  unfold ratSqrt
  split_ifs with h
  · exact le_refl 0
  · positivity

theorem clampVel_sq_le (vx vy m : ℚ) (hm : 0 ≤ m)
    (hsp : (ratSqrt (vx ^ 2 + vy ^ 2)) ^ 2 = vx ^ 2 + vy ^ 2) :
    (clampVel vx vy m).1 ^ 2 + (clampVel vx vy m).2 ^ 2 ≤ m ^ 2 := by
  have h0 : 0 ≤ ratSqrt (vx ^ 2 + vy ^ 2) := ratSqrt_nonneg _
  unfold clampVel hypot
  dsimp only
  split_ifs with h
  · have hpos : 0 < ratSqrt (vx ^ 2 + vy ^ 2) := lt_of_le_of_lt hm h
    have hne : ratSqrt (vx ^ 2 + vy ^ 2) ≠ 0 := ne_of_gt hpos
    have heq : (vx * (m / ratSqrt (vx ^ 2 + vy ^ 2))) ^ 2 +
        (vy * (m / ratSqrt (vx ^ 2 + vy ^ 2))) ^ 2
        = (vx ^ 2 + vy ^ 2) * m ^ 2 / (ratSqrt (vx ^ 2 + vy ^ 2)) ^ 2 := by
      field_simp
      ring
    have hden : vx ^ 2 + vy ^ 2 ≠ 0 := by
      rw [← hsp]
      exact pow_ne_zero 2 hne
    rw [heq, hsp, mul_comm, mul_div_assoc, div_self hden, mul_one]
  · have hle : ratSqrt (vx ^ 2 + vy ^ 2) ≤ m := not_lt.mp h
    calc vx ^ 2 + vy ^ 2 = (ratSqrt (vx ^ 2 + vy ^ 2)) ^ 2 := hsp.symm
    _ ≤ m ^ 2 := pow_le_pow_left₀ h0 hle 2

/-- C1: after the navigation/physics tick the vessel state is bounded:
applyRudder ends with clamp(·, −MAX_RUDDER_ANGLE, MAX_RUDDER_ANGLE), so
|rudderAngle| ≤ MAX_RUDDER_ANGLE; updateAIThrottle ends with clamp(·, 0, 100),
so throttle ∈ [0, 100]; physicsStep ends with the hard max-speed clamp, so a
live ship's speed (stated on squares) is at most its class maxSpeed.
MAX_RUDDER_ANGLE (π/6 in config.js) and maxSpeed are abstract nonnegative
parameters; the hypothesis `hsp` pins ratSqrt to the exact root of the
pre-clamp speed (Math.sqrt is transcendental).  Dead ships exit all navigation
logic (spec §3), so the speed bound is stated for a live ship. -/
theorem C1_tick_invariants
    (maxR turnRate : ℚ) (rudder angVel : Option ℚ) (heading desiredTurn dt : ℚ)
    (throttle0 : Option ℚ) (targetThrottle tdt : ℚ)
    (c s drag dragPow x y vx vy : ℚ) (cs0 th0 : Option ℚ) (maxSpeed pdt : ℚ)
    (hmr : 0 ≤ maxR) (hms : 0 ≤ maxSpeed)
    (hsp : (ratSqrt ((physicsPre c s dragPow vx vy cs0 th0 maxSpeed).1 ^ 2 +
                     (physicsPre c s dragPow vx vy cs0 th0 maxSpeed).2.1 ^ 2)) ^ 2 =
           (physicsPre c s dragPow vx vy cs0 th0 maxSpeed).1 ^ 2 +
           (physicsPre c s dragPow vx vy cs0 th0 maxSpeed).2.1 ^ 2) :
    |(applyRudder maxR turnRate rudder angVel heading desiredTurn dt).1| ≤ maxR ∧
    (0 ≤ updateAIThrottle throttle0 targetThrottle tdt ∧
     updateAIThrottle throttle0 targetThrottle tdt ≤ 100) ∧
    (physicsStep true c s drag dragPow x y vx vy cs0 th0 maxSpeed pdt).vx ^ 2 +
      (physicsStep true c s drag dragPow x y vx vy cs0 th0 maxSpeed pdt).vy ^ 2 ≤
      maxSpeed ^ 2 := by
  refine ⟨abs_clamp_le _ _ hmr, ⟨le_clamp_lo _ _ _, clamp_le_hi _ _ _ (by norm_num)⟩, ?_⟩
  exact clampVel_sq_le _ _ _ hms hsp

theorem C1_tick_invariants_witness :
    ((0:ℚ) ≤ 1/2 ∧ (0:ℚ) ≤ 65) ∧
    |(applyRudder (1/2) (3/2) none none 0 1 (1/60)).1| ≤ 1/2 ∧
    (0 ≤ updateAIThrottle none 75 (1/60) ∧ updateAIThrottle none 75 (1/60) ≤ 100) ∧
    (physicsStep true 1 0 (997/1000) 1 0 0 0 0 none none 65 (1/60)).vx ^ 2 +
      (physicsStep true 1 0 (997/1000) 1 0 0 0 0 none none 65 (1/60)).vy ^ 2 ≤
      (65:ℚ) ^ 2 :=
  ⟨⟨by norm_num, by norm_num⟩,
   C1_tick_invariants (1/2) (3/2) none none 0 1 (1/60) none 75 (1/60)
     1 0 (997/1000) 1 0 0 0 0 none none 65 (1/60)
     (by norm_num) (by norm_num) (by with_unfolding_all decide)⟩

/-- C4: the escort lock state machine respects hysteresis.  In one lockStep
tick: (a) an unlocked escort locks only while inside the lock radius with
accumulated dwell time ≥ 2.0 s; (b) a locked escort unlocks only beyond
3 × ESCORT_LOCK_RADIUS; (c) a tick that locks cannot also satisfy the unlock
condition (so no tick flips both ways); (d) leaving the lock radius while
unlocked resets the dwell clock — dwell time really is continuous time in
radius. -/
theorem C4_lock_hysteresis (locked : Bool) (t d dt : ℚ) :
    ((locked = false ∧ (lockStep locked t d dt).1 = true) →
        d ≤ ESCORT_LOCK_RADIUS ∧ 2 ≤ (lockStep locked t d dt).2) ∧
    ((locked = true ∧ (lockStep locked t d dt).1 = false) →
        ESCORT_LOCK_RADIUS * 3 < d) ∧
    ((locked = false ∧ (lockStep locked t d dt).1 = true) →
        ¬(ESCORT_LOCK_RADIUS * 3 < d)) ∧
    ((locked = false ∧ ¬(d ≤ ESCORT_LOCK_RADIUS)) → (lockStep locked t d dt).2 = 0) := by
  unfold lockStep ESCORT_LOCK_RADIUS
  cases locked <;> simp <;> split_ifs <;> simp_all <;> intros <;> first | linarith | rfl

theorem C4_lock_hysteresis_witness :
    ((false = false ∧ (lockStep false (19/10) 50 (1/5)).1 = true) ∧
      (50:ℚ) ≤ ESCORT_LOCK_RADIUS ∧ 2 ≤ (lockStep false (19/10) 50 (1/5)).2) :=
  ⟨⟨rfl, by with_unfolding_all decide⟩,
   (C4_lock_hysteresis false (19/10) 50 (1/5)).1 ⟨rfl, by with_unfolding_all decide⟩⟩

/-- Ship a of the C6 head-on scenario: a destroyer at the origin moving at
speed 10 straight toward ship b. -/
def shipC6a : Ship := { baseShip with id := 1, x := 0, y := 0, vx := 10, vy := 0 }

/-- Ship b of the C6 head-on scenario: a destroyer 100 units away moving at
speed 10 straight toward ship a. -/
def shipC6b : Ship :=
  { baseShip with id := 2, x := 100, y := 0, vx := -10, vy := 0 }

/-- C6: for two ships on exactly opposite courses at speed 10 from separation
100, the collision predictor flags a collision (some result = collides true)
with predicted time-to-closest-approach exactly 5 s, and it does so while the
true separation (the currentDist it measures) is 100 ≥ 60 units. -/
theorem C6_head_on_prediction :
    predictCollision shipC6a shipC6b 6 = some ⟨5, 1/5, 100⟩ ∧
    (60:ℚ) ≤ (predictCollision shipC6a shipC6b 6).elim 0 Prediction.currentDist := by
  with_unfolding_all decide

/-- C9: numeric corruption is healed on read.  A NaN/undefined throttle is
replaced by 50 inside updateAIThrottle, and a NaN/undefined rudder angle or
angular velocity is replaced by 0 inside applyRudder: the update of a corrupt
ship equals the update of the ship with the safe default, and (the functions
being total on ℚ) no NaN propagates and no error is raised. -/
theorem C9_nan_defaults (maxR turnRate heading desiredTurn dt targetThrottle tdt : ℚ)
    (r av : Option ℚ) :
    updateAIThrottle none targetThrottle tdt =
      updateAIThrottle (some 50) targetThrottle tdt ∧
    applyRudder maxR turnRate none av heading desiredTurn dt =
      applyRudder maxR turnRate (some 0) av heading desiredTurn dt ∧
    applyRudder maxR turnRate r none heading desiredTurn dt =
      applyRudder maxR turnRate r (some 0) heading desiredTurn dt :=
  ⟨rfl, rfl, rfl⟩

theorem two_le_countP {p : Ship → Bool} {l : List Ship} {a b : Ship}
    (ha : a ∈ l) (hb : b ∈ l) (hab : a ≠ b) (hpa : p a = true) (hpb : p b = true) :
    2 ≤ l.countP p := by
  have ha' : a ∈ l.filter p := List.mem_filter.mpr ⟨ha, hpa⟩
  have hb' : b ∈ l.filter p := List.mem_filter.mpr ⟨hb, hpb⟩
  have hlen : 2 ≤ (l.filter p).length := by
    rcases hfl : l.filter p with _ | ⟨x, _ | ⟨y, rest⟩⟩
    · rw [hfl] at ha'
      cases ha'
    · rw [hfl] at ha' hb'
      have hax : a = x := by simpa using ha'
      have hbx : b = x := by simpa using hb'
      exact absurd (hax.trans hbx.symm) hab
    · simp
  simpa [List.countP_eq_length_filter] using hlen

theorem rank_ge_one {s : Ship} (h : s.kind.type ≠ ShipType.BB) :
    1 ≤ classRank s.kind.type := by
  cases hty : s.kind.type <;> simp [classRank] <;> exact h hty

theorem rank_ge_two {s : Ship} (h1 : s.kind.type ≠ ShipType.BB)
    (h2 : s.kind.type ≠ ShipType.CV) : 2 ≤ classRank s.kind.type := by
  cases hty : s.kind.type <;> simp [classRank] <;> first | exact h1 hty | exact h2 hty

theorem rank_ge_three {s : Ship} (h1 : s.kind.type ≠ ShipType.BB)
    (h2 : s.kind.type ≠ ShipType.CV) (h3 : s.kind.type ≠ ShipType.DD) :
    3 ≤ classRank s.kind.type := by
  cases hty : s.kind.type <;> simp [classRank] <;>
    first | exact h1 hty | exact h2 hty | exact h3 hty

/-- The candidate chosen by the priority loop of pickCapitalLeader is a member
of the living list and belongs to the highest-priority class that has a living
member. -/
theorem priority_pick {alive : List Ship} {cand : Ship}
    (h : priorityList.findSome? (fun ty => alive.find? (fun s => s.kind.type = ty))
         = some cand) :
    cand ∈ alive ∧ ∀ s ∈ alive, classRank cand.kind.type ≤ classRank s.kind.type := by
  simp only [priorityList, List.findSome?_cons] at h
  rcases hBB : alive.find? (fun s => decide (s.kind.type = ShipType.BB)) with _ | c
  · rw [hBB] at h
    have noBB : ∀ s ∈ alive, s.kind.type ≠ ShipType.BB := by
      intro s hs
      have := List.find?_eq_none.mp hBB s hs
      simpa using this
    rcases hCV : alive.find? (fun s => decide (s.kind.type = ShipType.CV)) with _ | c
    · rw [hCV] at h
      have noCV : ∀ s ∈ alive, s.kind.type ≠ ShipType.CV := by
        intro s hs
        have := List.find?_eq_none.mp hCV s hs
        simpa using this
      rcases hDD : alive.find? (fun s => decide (s.kind.type = ShipType.DD)) with _ | c
      · rw [hDD] at h
        have noDD : ∀ s ∈ alive, s.kind.type ≠ ShipType.DD := by
          intro s hs
          have := List.find?_eq_none.mp hDD s hs
          simpa using this
        rcases hTB : alive.find? (fun s => decide (s.kind.type = ShipType.TB)) with _ | c
        · rw [hTB] at h
          simp at h
        · rw [hTB] at h
          simp at h
          subst h
          refine ⟨List.mem_of_find?_eq_some hTB, fun s hs => ?_⟩
          have hc : c.kind.type = ShipType.TB := by
            have := List.find?_some hTB
            simpa using this
          have := rank_ge_three (noBB s hs) (noCV s hs) (noDD s hs)
          rw [hc]
          simpa [classRank] using this
      · rw [hDD] at h
        simp at h
        subst h
        refine ⟨List.mem_of_find?_eq_some hDD, fun s hs => ?_⟩
        have hc : c.kind.type = ShipType.DD := by
          have := List.find?_some hDD
          simpa using this
        have := rank_ge_two (noBB s hs) (noCV s hs)
        rw [hc]
        simpa [classRank] using this
    · rw [hCV] at h
      simp at h
      subst h
      refine ⟨List.mem_of_find?_eq_some hCV, fun s hs => ?_⟩
      have hc : c.kind.type = ShipType.CV := by
        have := List.find?_some hCV
        simpa using this
      have := rank_ge_one (noBB s hs)
      rw [hc]
      simpa [classRank] using this
  · rw [hBB] at h
    simp at h
    subst h
    refine ⟨List.mem_of_find?_eq_some hBB, fun s hs => ?_⟩
    have hc : c.kind.type = ShipType.BB := by
      have := List.find?_some hBB
      simpa using this
    rw [hc]
    simp [classRank]

theorem countP_id_eq_one {arr : List Ship} {i : ℕ}
    (hids : (arr.map Ship.id).Nodup) {t : Ship} (ht : t ∈ arr) (hti : t.id = i) :
    arr.countP (fun s => s.id == i) = 1 := by
  have hmem : i ∈ arr.map Ship.id := List.mem_map.mpr ⟨t, ht, hti⟩
  have hcount : (arr.map Ship.id).count i = 1 := List.count_eq_one_of_mem hids hmem
  calc arr.countP (fun s => s.id == i)
      = arr.countP ((fun x => x == i) ∘ Ship.id) := rfl
    _ = (arr.map Ship.id).countP (fun x => x == i) := (List.countP_map _ _ _).symm
    _ = (arr.map Ship.id).count i := rfl
    _ = 1 := hcount

/-- C2 (amended): on a roster with at least one living vessel in which at most
one vessel already carries the commander flag (and whose entries are distinct
objects, modelled by distinct ids), after pickCapitalLeader exactly one vessel
of the roster carries the flag and that vessel is alive.  (As stated in the
spec the claim fails: when a living flagged vessel exists the election returns
early without clearing duplicate or stale flags — see the counterexample.) -/
theorem C2_exactly_one_commander (arr : List Ship)
    (hlive : ∃ s ∈ arr, s.alive = true)
    (hflags : arr.countP (fun s => s.isCommander) ≤ 1)
    (hids : (arr.map Ship.id).Nodup) :
    (pickCapitalLeader arr).2.countP (fun s => s.isCommander) = 1 ∧
    ∀ s ∈ (pickCapitalLeader arr).2, s.isCommander = true → s.alive = true := by
  obtain ⟨w, hw, hwa⟩ := hlive
  have hwmem : w ∈ arr.filter (fun s => s.alive) := List.mem_filter.mpr ⟨hw, by simpa using hwa⟩
  have hne : (arr.filter (fun s => s.alive)).isEmpty = false := by
    rcases hfe : (arr.filter (fun s => s.alive)) with _ | _
    · rw [hfe] at hwmem
      cases hwmem
    · rw [hfe]
      rfl
  unfold pickCapitalLeader
  simp only [hne, Bool.false_eq_true, if_false]
  rcases hcom : (arr.filter (fun s => s.alive)).find? (fun s => s.isCommander) with _ | c <;>
    rw [hcom] <;> dsimp only
  case some =>
    have hcfil : c ∈ arr.filter (fun s => s.alive) := List.mem_of_find?_eq_some hcom
    have hcArr : c ∈ arr := (List.mem_filter.mp hcfil).1
    have hcAlive : c.alive = true := by simpa using (List.mem_filter.mp hcfil).2
    have hcFlag : c.isCommander = true := List.find?_some hcom
    constructor
    · refine le_antisymm hflags ?_
      exact List.countP_pos_iff.mpr ⟨c, hcArr, hcFlag⟩
    · intro s hs hf
      by_contra hna
      have hsc : s ≠ c := fun h => hna (h ▸ hcAlive)
      have := @two_le_countP (fun s => s.isCommander) arr s c hs hcArr hsc hf hcFlag
      omega
  case none =>
    rcases hcand : priorityList.findSome?
        (fun ty => (arr.filter (fun s => s.alive)).find? (fun s => s.kind.type = ty))
        with _ | cand <;> rw [hcand] <;> dsimp only
    case none =>
      exfalso
      have hall : ∀ ty ∈ priorityList,
          (arr.filter (fun s => s.alive)).find? (fun s => s.kind.type = ty) = none :=
        List.findSome?_eq_none.mp hcand
      have hnone : ∀ ty, (arr.filter (fun s => s.alive)).find?
          (fun s => s.kind.type = ty) = none → w.kind.type ≠ ty := by
        intro ty hty
        have := List.find?_eq_none.mp hty w hwmem
        simpa using this
      cases hwt : w.kind.type
      · exact hnone ShipType.BB (hall _ (by simp [priorityList])) hwt
      · exact hnone ShipType.CV (hall _ (by simp [priorityList])) hwt
      · exact hnone ShipType.DD (hall _ (by simp [priorityList])) hwt
      · exact hnone ShipType.TB (hall _ (by simp [priorityList])) hwt
    case some =>
      obtain ⟨hcandMem, _⟩ := priority_pick hcand
      have hcandArr : cand ∈ arr := (List.mem_filter.mp hcandMem).1
      have hcandAlive : cand.alive = true := by simpa using (List.mem_filter.mp hcandMem).2
      constructor
      · rw [List.countP_map]
        have hcongr : ∀ s ∈ arr,
            (((fun s => s.isCommander) ∘
              (fun s => if s.id = cand.id then crown s else { s with isCommander := false })) s
             = true) ↔ ((fun s => s.id == cand.id) s = true) := by
          intro s _
          by_cases h : s.id = cand.id <;> simp [crown, h]
        rw [List.countP_congr hcongr]
        exact countP_id_eq_one hids hcandArr rfl
      · intro s hs hf
        obtain ⟨t, ht, rfl⟩ := List.mem_map.mp hs
        by_cases hid : t.id = cand.id
        · have hteq : t = cand := List.inj_on_of_nodup_map hids ht hcandArr hid
          subst hteq
          simp [crown, hid]
          exact hcandAlive
        · simp [hid] at hf

/-- First of two living flagged battleships used to refute C2 as stated. -/
def shipC2a : Ship := { baseShip with id := 1, kind := kindBB, isCommander := true }

/-- Second living flagged battleship of the C2 counterexample roster. -/
def shipC2b : Ship := { baseShip with id := 2, kind := kindBB, isCommander := true }

/-- C2 counterexample: a roster with a living vessel on which pickCapitalLeader
leaves two commander flags set — it finds a living flagged vessel and returns
without clearing the duplicate — so "exactly one vessel in the roster has the
isCommander flag set" is false after the call. -/
theorem C2_counterexample :
    ([shipC2a, shipC2b].any (fun s => s.alive) = true) ∧
    (pickCapitalLeader [shipC2a, shipC2b]).2.countP (fun s => s.isCommander) = 2 := by
  with_unfolding_all decide

/-- Roster for the C2 witness: one living flagged commander and a living escort. -/
def shipC2c : Ship := { baseShip with id := 3, kind := kindDD }

theorem C2_exactly_one_commander_witness :
    ((∃ s ∈ [shipC2a, shipC2c], s.alive = true) ∧
     [shipC2a, shipC2c].countP (fun s => s.isCommander) ≤ 1 ∧
     ([shipC2a, shipC2c].map Ship.id).Nodup) ∧
    (pickCapitalLeader [shipC2a, shipC2c]).2.countP (fun s => s.isCommander) = 1 ∧
    ∀ s ∈ (pickCapitalLeader [shipC2a, shipC2c]).2, s.isCommander = true → s.alive = true :=
  ⟨⟨by with_unfolding_all decide, by with_unfolding_all decide, by with_unfolding_all decide⟩,
   C2_exactly_one_commander [shipC2a, shipC2c]
     (by with_unfolding_all decide) (by with_unfolding_all decide)
     (by with_unfolding_all decide)⟩

/-- C3: on a roster with a living vessel in which no living vessel carries the
commander flag (the previous commander is dead), pickCapitalLeader elects a
living vessel of the highest-priority class (BB > CV > DD > TB) that has a
living member: the elected commander's class rank is minimal among all living
vessels. -/
theorem C3_priority_election (arr : List Ship)
    (hlive : ∃ s ∈ arr, s.alive = true)
    (hdead : ∀ s ∈ arr, s.alive = true → s.isCommander = false) :
    ∃ c, (pickCapitalLeader arr).1 = some c ∧ c.alive = true ∧
      ∀ s ∈ arr, s.alive = true → classRank c.kind.type ≤ classRank s.kind.type := by
  obtain ⟨w, hw, hwa⟩ := hlive
  have hwmem : w ∈ arr.filter (fun s => s.alive) := List.mem_filter.mpr ⟨hw, by simpa using hwa⟩
  have hne : (arr.filter (fun s => s.alive)).isEmpty = false := by
    rcases hfe : (arr.filter (fun s => s.alive)) with _ | _
    · rw [hfe] at hwmem
      cases hwmem
    · rw [hfe]
      rfl
  have hcom : (arr.filter (fun s => s.alive)).find? (fun s => s.isCommander) = none := by
    rw [List.find?_eq_none]
    intro s hs
    have hsArr : s ∈ arr := (List.mem_filter.mp hs).1
    have hsAlive : s.alive = true := by simpa using (List.mem_filter.mp hs).2
    simp [hdead s hsArr hsAlive]
  unfold pickCapitalLeader
  simp only [hne, Bool.false_eq_true, if_false, hcom]
  rcases hcand : priorityList.findSome?
      (fun ty => (arr.filter (fun s => s.alive)).find? (fun s => s.kind.type = ty))
      with _ | cand <;> rw [hcand] <;> dsimp only
  case none =>
    exfalso
    have hall : ∀ ty ∈ priorityList,
        (arr.filter (fun s => s.alive)).find? (fun s => s.kind.type = ty) = none :=
      List.findSome?_eq_none.mp hcand
    have hnone : ∀ ty, (arr.filter (fun s => s.alive)).find?
        (fun s => s.kind.type = ty) = none → w.kind.type ≠ ty := by
      intro ty hty
      have := List.find?_eq_none.mp hty w hwmem
      simpa using this
    cases hwt : w.kind.type
    · exact hnone ShipType.BB (hall _ (by simp [priorityList])) hwt
    · exact hnone ShipType.CV (hall _ (by simp [priorityList])) hwt
    · exact hnone ShipType.DD (hall _ (by simp [priorityList])) hwt
    · exact hnone ShipType.TB (hall _ (by simp [priorityList])) hwt
  case some =>
    obtain ⟨hcandMem, hmin⟩ := priority_pick hcand
    have hcandAlive : cand.alive = true := by simpa using (List.mem_filter.mp hcandMem).2
    refine ⟨crown cand, rfl, by simpa [crown] using hcandAlive, ?_⟩
    intro s hs hsa
    have : s ∈ arr.filter (fun s => s.alive) := List.mem_filter.mpr ⟨hs, by simpa using hsa⟩
    simpa [crown] using hmin s this

/-- Dead flagged battleship (the fallen commander) of the C3 witness roster. -/
def shipC3a : Ship :=
  { baseShip with id := 1, kind := kindBB, alive := false, isCommander := true }

/-- Living destroyer of the C3 witness roster. -/
def shipC3b : Ship := { baseShip with id := 2, kind := kindDD }

/-- Living carrier of the C3 witness roster (the highest-priority living class). -/
def shipC3c : Ship := { baseShip with id := 3, kind := kindCV }

theorem C3_priority_election_witness :
    ((∃ s ∈ [shipC3a, shipC3b, shipC3c], s.alive = true) ∧
     (∀ s ∈ [shipC3a, shipC3b, shipC3c], s.alive = true → s.isCommander = false)) ∧
    (∃ c, (pickCapitalLeader [shipC3a, shipC3b, shipC3c]).1 = some c ∧ c.alive = true ∧
      ∀ s ∈ [shipC3a, shipC3b, shipC3c], s.alive = true →
        classRank c.kind.type ≤ classRank s.kind.type) :=
  ⟨⟨by with_unfolding_all decide, by with_unfolding_all decide⟩,
   C3_priority_election [shipC3a, shipC3b, shipC3c]
     (by with_unfolding_all decide) (by with_unfolding_all decide)⟩

/-- Degenerate trig table for concrete runs that never consult the trig
functions (every value 0, pi = 1). -/
def trigZero : Trig := ⟨1, fun _ => 0, fun _ => 0, fun _ _ => 0⟩

theorem clamp_ne_zero (v lo hi : ℚ) (hv : v ≠ 0) (hlo : lo < 0) (hhi : 0 < hi) :
    clamp v lo hi ≠ 0 := by
  rcases lt_or_gt_of_ne hv with h | h
  · exact ne_of_lt (clamp_neg _ _ _ h hlo)
  · exact ne_of_gt (clamp_pos _ _ _ h hhi)

/-- The threat loop body of calculateAvoidanceSteering, on a living same-team
ship other than the steered one that passes the 200-unit and danger guards,
adds a contribution of steering direction ±1 times 0.35 times the clamped
urgency to the accumulator. -/
theorem avoidStep_active (T : Trig) (ship other : Ship) (acc : ℚ × Option PredictedInfo)
    (hne : other ≠ ship) (halive : other.alive = true) (hteam : other.team = ship.team)
    (hdist : hypot (other.x - ship.x) (other.y - ship.y) ≤ 200)
    (hdanger : hypot (other.x - ship.x) (other.y - ship.y)
                 < ship.kind.radius + other.kind.radius + 25 + 40 ∨
               (avoidMinFuture ship other).1
                 < ship.kind.radius + other.kind.radius + 25 + 30) :
    ∃ d : ℚ, (d = 1 ∨ d = -1) ∧
      (avoidStep T ship acc other).1
        = acc.1 + d * (35/100) *
          clamp (1 - ((min (hypot (other.x - ship.x) (other.y - ship.y))
                          (avoidMinFuture ship other).1
                      - (ship.kind.radius + other.kind.radius + 25)) / 50)) (3/10) 1 := by
  unfold avoidStep
  dsimp only
  rw [if_neg (by simp [halive, hne]), if_neg (by simp [hteam]),
      if_neg (not_lt.mpr hdist),
      if_neg (fun hc => hdanger.elim (fun h => hc.1 h) (fun h => hc.2 h))]
  dsimp only
  split_ifs <;> first
    | exact ⟨1, Or.inl rfl, rfl⟩
    | exact ⟨-1, Or.inr rfl, rfl⟩

/-- C7 (amended): for a living same-team pair flagged by predictCollision with
positive urgency that in addition lies inside the steering routine's own
reaction envelope — current separation at most 200 units and either
dangerously close (separation < hull-radius sum + 65) or with sampled
3-second minimum separation below hull-radius sum + 55 — and where the other
ship is the ship's only living teammate in the roster, the avoidance steering
bias is nonzero, for every trig model.  (As stated the claim fails: the
predictor looks 6 s ahead with generous thresholds while the steering routine
ignores anything beyond 200 units — see the counterexample.) -/
theorem C7_steering_nonzero (T : Trig) (ship other : Ship)
    (hne : other ≠ ship)
    (halive : other.alive = true)
    (hteam : other.team = ship.team)
    (hpred : ∃ p, predictCollision ship other 6 = some p ∧ 0 < p.urgency)
    (hdist : hypot (other.x - ship.x) (other.y - ship.y) ≤ 200)
    (hdanger : hypot (other.x - ship.x) (other.y - ship.y)
                 < ship.kind.radius + other.kind.radius + 25 + 40 ∨
               (avoidMinFuture ship other).1
                 < ship.kind.radius + other.kind.radius + 25 + 30) :
    (calculateAvoidanceSteering T ship [ship, other]).steer ≠ 0 := by
  have hstep1 : avoidStep T ship (0, none) ship = (0, none) := by
    unfold avoidStep
    rw [if_pos (Or.inr rfl)]
  obtain ⟨d, hd, h1⟩ :=
    avoidStep_active T ship other (0, none) hne halive hteam hdist hdanger
  unfold calculateAvoidanceSteering
  simp only [List.foldl, hstep1]
  rw [h1]
  have hu : (3:ℚ)/10 ≤ clamp (1 - ((min (hypot (other.x - ship.x) (other.y - ship.y))
      (avoidMinFuture ship other).1
      - (ship.kind.radius + other.kind.radius + 25)) / 50)) (3/10) 1 :=
    le_clamp_lo _ _ _
  apply clamp_ne_zero
  · rcases hd with rfl | rfl
    · nlinarith
    · nlinarith
  · norm_num
  · norm_num

/-- First ship of the C7 counterexample pair: a destroyer at the origin
heading along +x at speed 20. -/
def shipC7a : Ship := { baseShip with id := 1, x := 0, y := 0, vx := 20 }

/-- Second ship of the C7 counterexample pair: a destroyer 300 units away
closing head-on at speed 20. -/
def shipC7b : Ship := { baseShip with id := 2, x := 300, y := 0, vx := -20 }

/-- C7 counterexample: a living same-team pair 300 units apart closing head-on.
predictCollision returns collides with urgency 1/5 > 0 (minimum sampled
separation 60 at t = 6 s), but calculateAvoidanceSteering skips any teammate
farther than 200 units, so the steering bias is exactly 0 — refuting the claim
as stated.  The trig table is never consulted on this run (the threat loop
exits at the distance guard), so the degenerate table is sound. -/
theorem C7_counterexample :
    shipC7a.alive = true ∧ shipC7b.alive = true ∧ shipC7a.team = shipC7b.team ∧
    predictCollision shipC7a shipC7b 6 = some ⟨6, 1/5, 300⟩ ∧
    (calculateAvoidanceSteering trigZero shipC7a [shipC7a, shipC7b]).steer = 0 := by
  with_unfolding_all decide

/-- Stationary destroyer pair 80 units apart used as the C7 witness. -/
def shipC7c : Ship := { baseShip with id := 3, x := 0, y := 0 }

/-- Other ship of the C7 witness pair. -/
def shipC7d : Ship := { baseShip with id := 4, x := 80, y := 0 }

theorem C7_steering_nonzero_witness :
    (shipC7d ≠ shipC7c ∧ shipC7d.alive = true ∧ shipC7d.team = shipC7c.team ∧
     (∃ p, predictCollision shipC7c shipC7d 6 = some p ∧ 0 < p.urgency) ∧
     hypot (shipC7d.x - shipC7c.x) (shipC7d.y - shipC7c.y) ≤ 200 ∧
     hypot (shipC7d.x - shipC7c.x) (shipC7d.y - shipC7c.y)
       < shipC7c.kind.radius + shipC7d.kind.radius + 25 + 40) ∧
    (calculateAvoidanceSteering trigZero shipC7c [shipC7c, shipC7d]).steer ≠ 0 :=
  ⟨⟨by with_unfolding_all decide, by with_unfolding_all decide,
    by with_unfolding_all decide,
    ⟨⟨0, 1, 80⟩, by with_unfolding_all decide, by norm_num⟩,
    by with_unfolding_all decide, by with_unfolding_all decide⟩,
   C7_steering_nonzero trigZero shipC7c shipC7d
     (by with_unfolding_all decide) (by with_unfolding_all decide)
     (by with_unfolding_all decide)
     ⟨⟨0, 1, 80⟩, by with_unfolding_all decide, by norm_num⟩
     (by with_unfolding_all decide)
     (Or.inl (by with_unfolding_all decide))⟩

theorem avoidStep_skip (T : Trig) (ship other : Ship) (acc : ℚ × Option PredictedInfo)
    (h : other.alive = false ∨ other = ship ∨ other.team ≠ ship.team) :
    avoidStep T ship acc other = acc := by
  unfold avoidStep
  rcases h with h | h | h
  · rw [if_pos (Or.inl (by simp [h]))]
  · rw [if_pos (Or.inr h)]
  · by_cases h1 : (¬other.alive ∨ other = ship)
    · rw [if_pos h1]
    · rw [if_neg h1, if_pos h]

/-- calculateAvoidanceSteering only reads the living same-team part of the
roster: every other entry is skipped by the guards before any state changes. -/
theorem calcAvoid_filter (T : Trig) (ship : Ship) (l : List Ship) :
    calculateAvoidanceSteering T ship l =
      calculateAvoidanceSteering T ship
        (l.filter (fun o => o.alive && (o.team == ship.team))) := by
  unfold calculateAvoidanceSteering
  suffices h : ∀ acc, l.foldl (avoidStep T ship) acc =
      (l.filter (fun o => o.alive && (o.team == ship.team))).foldl (avoidStep T ship) acc by
    rw [h]
  induction l with
  | nil => intro acc; rfl
  | cons o os ih =>
    intro acc
    by_cases hq : (o.alive && (o.team == ship.team)) = true
    · rw [List.filter_cons, if_pos hq]
      simp only [List.foldl]
      exact ih _
    · rw [List.filter_cons, if_neg hq]
      simp only [List.foldl]
      rw [avoidStep_skip]
      · exact ih _
      · rcases hb : o.alive with _ | _
        · exact Or.inl rfl
        · right
          right
          intro ht
          exact hq (by simp [hb, ht])

/-- C10: the ship-vs-ship avoidance steering depends only on the living
same-team part of the roster: two rosters with the same living same-team
entries (in the same order) — in particular rosters differing only in enemy
ships' presence, positions or velocities — yield the same steering result,
for every trig model. -/
theorem C10_enemy_independence (T : Trig) (ship : Ship) (l₁ l₂ : List Ship)
    (h : l₁.filter (fun o => o.alive && (o.team == ship.team)) =
         l₂.filter (fun o => o.alive && (o.team == ship.team))) :
    calculateAvoidanceSteering T ship l₁ = calculateAvoidanceSteering T ship l₂ := by
  rw [calcAvoid_filter T ship l₁, calcAvoid_filter T ship l₂, h]

/-- Player-team ship used in the C10 witness. -/
def shipC10 : Ship := { baseShip with id := 7 }

/-- Enemy-team ship whose presence must not change the C10 steering result. -/
def shipC10e : Ship := { baseShip with id := 8, team := Team.E, x := 50 }

theorem C10_enemy_independence_witness :
    ([shipC10, shipC10e].filter (fun o => o.alive && (o.team == shipC10.team)) =
     [shipC10].filter (fun o => o.alive && (o.team == shipC10.team))) ∧
    calculateAvoidanceSteering trigZero shipC10 [shipC10, shipC10e] =
      calculateAvoidanceSteering trigZero shipC10 [shipC10] :=
  ⟨by with_unfolding_all decide,
   C10_enemy_independence trigZero shipC10 _ _ (by with_unfolding_all decide)⟩

theorem clamp_eq_self (v lo hi : ℚ) (h1 : lo ≤ v) (h2 : v ≤ hi) : clamp v lo hi = v := by
  unfold clamp
  rw [min_eq_right h2, max_eq_right h1]

theorem avoidPushLoop_of_free (pad : ℚ) (land : List Circle) (k : ℕ) (p : ℚ × ℚ)
    (h : inLand p.1 p.2 pad land = none) : avoidPushLoop pad land (k+1) p = p := by
  unfold avoidPushLoop
  rw [h]

/-- C5 (amended): in the crossing-free case the local avoidance planner is
safe: if the raw target is not blocked at the planner's margin
(hull radius + 120), lies inside the world's interior clamp band, and the
straight path from the ship to it crosses no obstacle, avoidLandTarget returns
exactly that target, which is unblocked.  (As universally stated the claim
fails: the bypass waypoint around a crossed obstacle, after being pushed clear
of a second obstacle, can be returned while still blocked by the first — see
the counterexample.) -/
theorem C5_clear_path_safe (T : Trig) (ship : Ship) (tx ty : ℚ) (land : List Circle)
    (hfree : inLand tx ty (ship.kind.radius + 120) land = none)
    (hx1 : 50 ≤ tx) (hx2 : tx ≤ WORLD_W - 50)
    (hy1 : 50 ≤ ty) (hy2 : ty ≤ WORLD_H - 50)
    (hcross : pathCrossesLand ship.x ship.y tx ty (ship.kind.radius + 120) land = none) :
    avoidLandTarget T ship tx ty land = ⟨tx, ty⟩ ∧
    inLand tx ty (ship.kind.radius + 120) land = none := by
  refine ⟨?_, hfree⟩
  have hpush : avoidPushLoop (ship.kind.radius + 120) land 8 (tx, ty) = (tx, ty) :=
    avoidPushLoop_of_free _ _ 7 _ hfree
  unfold avoidLandTarget
  dsimp only
  rw [hpush]
  dsimp only
  rw [hcross]
  dsimp only
  rw [clamp_eq_self _ _ _ hx1 hx2, clamp_eq_self _ _ _ hy1 hy2]

/-- The two islands of the C5 counterexample: the crossed island A at the
origin (radius 300) and its neighbour B at (0, 700) (radius 200) that blocks
the bypass waypoint. -/
def landC5 : List Circle := [⟨0, 0, 300⟩, ⟨0, 700, 200⟩]

/-- The destroyer of the C5 counterexample, 2000 units west of island A. -/
def shipC5 : Ship := { baseShip with id := 1, x := -2000, y := 0 }

/-- Trig table (angles in half-turns, pi = 1) for the C5 run.  The run
evaluates atan2 exactly at (0, −2000) ↦ π = 1 ht, (0, 2000) ↦ 0 and
(−66, 0) ↦ −π/2 = −1/2 ht, discriminated below by the sign of x; cos exactly
at ±π/2, both 0; and sin exactly at π/2 ↦ 1 and −π/2 ↦ −1, discriminated by
the sign.  Every value is the exact value of the real function at the
argument the run feeds it. -/
def trigC5 : Trig :=
  ⟨1,
   fun _ => 0,
   fun a => if 0 < a then 1 else -1,
   fun _ x => if x < 0 then 1 else if 0 < x then 0 else -(1/2)⟩

/-- C5 counterexample: steering the destroyer from (−2000, 0) to (2000, 0)
across island A, the bypass waypoint (0, 634) is blocked by island B, the push
moves it to (0, 216) — inside A's margin, which the push loop never rechecks —
and the world clamp moves it to (200, 216).  avoidLandTarget returns
(200, 216), which is still blocked by island A at the planner's margin
(distance ≈ 294 ≤ 300 + 134), refuting the claim as stated. -/
theorem C5_counterexample :
    avoidLandTarget trigC5 shipC5 2000 0 landC5 = ⟨200, 216⟩ ∧
    inLand 200 216 (shipC5.kind.radius + 120) landC5 = some ⟨0, 0, 300⟩ := by
  with_unfolding_all decide

/-- Distant island for the C5 witness run. -/
def landC5w : List Circle := [⟨5000, 5000, 300⟩]

/-- Ship of the C5 witness run. -/
def shipC5w : Ship := { baseShip with id := 2, x := 1000, y := 1000 }

theorem C5_clear_path_safe_witness :
    (inLand 1200 1000 (shipC5w.kind.radius + 120) landC5w = none ∧
     pathCrossesLand shipC5w.x shipC5w.y 1200 1000 (shipC5w.kind.radius + 120) landC5w
       = none) ∧
    avoidLandTarget trigZero shipC5w 1200 1000 landC5w = ⟨1200, 1000⟩ ∧
    inLand 1200 1000 (shipC5w.kind.radius + 120) landC5w = none :=
  ⟨⟨by with_unfolding_all decide, by with_unfolding_all decide⟩,
   C5_clear_path_safe trigZero shipC5w 1200 1000 landC5w
     (by with_unfolding_all decide)
     (by norm_num) (by with_unfolding_all decide)
     (by norm_num) (by with_unfolding_all decide)
     (by with_unfolding_all decide)⟩

/-- The single obstacle of the C8 scenario: a circle at (500, 1000), radius 200. -/
def landC8 : List Circle := [⟨500, 1000, 200⟩]

/-- The commander of the C8 scenario at (500, 500). -/
def shipC8 : Ship := { baseShip with id := 1, x := 500, y := 500 }

/-- Trig table (angles in half-turns, pi = 1) for the C8 run.  atan2 is
evaluated exactly twice: at (−500, 0), where the real value is −π/2 ↦ −1/2
(exact), and at (950, 300), where it is 1.26487…rad ↦ 0.402636… half-turns
≈ 2013/5000; the two are discriminated by the sign of y.  cos and sin are
evaluated exactly once, at the bisector midAngle = −487/10000 half-turns
= −0.15299…rad, where cos = 0.98833… ≈ 9883/10000 and
sin = −0.15243… ≈ −1524/10000; the tables are those constants.  The
approximation errors (≲ 2·10⁻⁴) are far below every branch margin of the run
(all ≥ 30 units). -/
def trigC8 : Trig :=
  ⟨1,
   fun _ => 9883/10000,
   fun _ => -(1524/10000),
   fun y _ => if y < 0 then -(1/2) else 2013/5000⟩

/-- C8: the commander at (500, 500) ordered to (500, 1500) with the single
obstacle (500, 1000) radius 200 gets a route of 2 ≥ 2 waypoints
((307543/200, 41999/50) ≈ (1537.7, 840.0) and (800, 1950)), and every returned
waypoint is strictly farther than 200 + 700 = 900 units (the planner's
clearance margin COMMANDER_LAND_MARGIN) from the obstacle's center. -/
theorem C8_commander_route :
    2 ≤ (planCommanderRoute trigC8 shipC8 landC8 500 1500).length ∧
    ∀ wp ∈ planCommanderRoute trigC8 shipC8 landC8 500 1500,
      (200 + COMMANDER_LAND_MARGIN) ^ 2 < (wp.x - 500) ^ 2 + (wp.y - 1000) ^ 2 := by
  with_unfolding_all decide

end ShipBattles
